import Mathlib

/-!
Shallow embedding of `differential_privacy/randomized_response/generalized.py`
(class `GeneralRandomizedResponse`).

Modelling conventions:
- Python floats are modelled as exact real numbers (`ℝ`); the construction
  checks in the source compare floats exactly (no tolerance), and the spec
  reasons about the arithmetic as exact.
- A Python method that can `raise` is modelled as returning `Except DPError α`;
  the error taxonomy names the source's exceptions: the two
  `Exception('Probability ...')` raises in `__init__` and the
  `Exception('This is not a probability')` raise in the estimator are
  `InvalidProbability`, the `Exception('Epsilon cannot be negative')` raise is
  `InvalidEpsilon`, and Python's `ZeroDivisionError` on the exactly-zero
  denominator `2*p_00 - 1` in `get_unbiased_mean_estimator` is
  `NonInvertibleMechanism`.
- Optional (`None`-default) float parameters are `Option ℝ`; a Python dict
  whose values may be `None` is a structure of `Option ℝ` fields; arithmetic
  on `None` (a `TypeError`) is the `none` result of `get_P_X_mass`.
- The likelihood ratios in `check_eps_privacy` use `float("inf")`; they are
  modelled in `EReal` with `⊤` for `+∞`.
- The `warnings.warn` call on `p_00 = p_11 = 1` is a non-fatal diagnostic that
  does not affect the constructed state and is not modelled.
-/

open Classical

inductive DPError : Type where
  | InvalidProbability : DPError
  | InvalidEpsilon : DPError
  | NonInvertibleMechanism : DPError
deriving DecidableEq

/-- The state of a `GeneralRandomizedResponse` object: the four entries of the
2×2 design matrix `self._P = [[p_00, p_01], [p_10, p_11]]`, stored row-major
(`p_00 = _P[0][0]`, `p_01 = _P[0][1]`, `p_10 = _P[1][0]`, `p_11 = _P[1][1]`). -/
structure GeneralRandomizedResponse : Type where
  p_00 : ℝ
  p_01 : ℝ
  p_10 : ℝ
  p_11 : ℝ

namespace GeneralRandomizedResponse

/-- The stored design matrix `self._P`, row by row, as the source assembles it
on line 66: `self._P = [[p_00, p_01], [p_10, p_11]]`. -/
def matrixP (g : GeneralRandomizedResponse) : List (List ℝ) :=
  [[g.p_00, g.p_01], [g.p_10, g.p_11]]

/-- `GeneralRandomizedResponse.__init__` (lines 34-66): bounds checks on each
argument, then the two exact row-sum checks, then the state is stored. -/
noncomputable def init (p_00 p_01 p_10 p_11 : ℝ) :
    Except DPError GeneralRandomizedResponse :=
  if p_00 > 1 ∨ p_00 < 0 then .error .InvalidProbability
  else if p_01 > 1 ∨ p_01 < 0 then .error .InvalidProbability
  else if p_10 > 1 ∨ p_10 < 0 then .error .InvalidProbability
  else if p_11 > 1 ∨ p_11 < 0 then .error .InvalidProbability
  else if p_00 + p_01 ≠ 1 then .error .InvalidProbability
  else if p_10 + p_11 ≠ 1 then .error .InvalidProbability
  else .ok ⟨p_00, p_01, p_10, p_11⟩

/-- A state satisfying exactly the checks `init` enforces (all four entries in
`[0,1]`, both rows summing exactly to `1`): the states reachable by successful
construction. -/
def Valid (g : GeneralRandomizedResponse) : Prop :=
  (0 ≤ g.p_00 ∧ g.p_00 ≤ 1) ∧ (0 ≤ g.p_01 ∧ g.p_01 ≤ 1) ∧
  (0 ≤ g.p_10 ∧ g.p_10 ≤ 1) ∧ (0 ≤ g.p_11 ∧ g.p_11 ≤ 1) ∧
  g.p_00 + g.p_01 = 1 ∧ g.p_10 + g.p_11 = 1

/-- `set_optimal_utility` (lines 68-79): replaces the whole state with the
symmetric matrix built from `eps`; the previous state is not read. -/
noncomputable def set_optimal_utility (_g : GeneralRandomizedResponse)
    (eps : ℝ) : GeneralRandomizedResponse :=
  ⟨Real.exp eps / (1 + Real.exp eps), 1 / (1 + Real.exp eps),
   1 / (1 + Real.exp eps), Real.exp eps / (1 + Real.exp eps)⟩

/-- The likelihood ratio `p` of `check_eps_privacy` (lines 90-93):
`float("inf")` if `self._P[0][1] == 0.0`, else `self._P[0][0] / self._P[0][1]`. -/
noncomputable def lratP (g : GeneralRandomizedResponse) : EReal :=
  if g.p_01 = 0 then (⊤ : EReal) else ((g.p_00 / g.p_01 : ℝ) : EReal)

/-- The likelihood ratio `q` of `check_eps_privacy` (lines 95-98):
`float("inf")` if `self._P[1][0] == 0.0`, else `self._P[1][1] / self._P[1][0]`. -/
noncomputable def lratQ (g : GeneralRandomizedResponse) : EReal :=
  if g.p_10 = 0 then (⊤ : EReal) else ((g.p_11 / g.p_10 : ℝ) : EReal)

/-- `check_eps_privacy` (lines 81-101): raises on negative `eps`, otherwise
returns the boolean of the comparison `max(p, q) <= exp(eps) + tol`. -/
noncomputable def check_eps_privacy (g : GeneralRandomizedResponse)
    (eps tol : ℝ) : Except DPError Bool :=
  if eps < 0 then .error .InvalidEpsilon
  else if max (lratP g) (lratQ g) ≤ ((Real.exp eps + tol : ℝ) : EReal) then .ok true
  else .ok false

/-- The result dict of `get_P_X_mass`: `{'P(Y=0)': ..., 'P(Y=1)': ...}`. -/
structure PMass : Type where
  PY0 : ℝ
  PY1 : ℝ

/-- `get_P_X_mass` (lines 103-118): the two reassignment lines
`if pi_0 is not None: pi_1 = 1.0 - pi_0` and
`if pi_1 is not None: pi_0 = 1.0 - pi_1` run in that order, then the mass
entries are computed; if both proportions are still `None`, the arithmetic on
`None` fails (Python `TypeError`), modelled as `none`. -/
def get_P_X_mass (g : GeneralRandomizedResponse) (pi_0 pi_1 : Option ℝ) :
    Option PMass :=
  let pi_1a : Option ℝ := match pi_0 with
    | some v => some (1 - v)
    | none => pi_1
  let pi_0a : Option ℝ := match pi_1a with
    | some v => some (1 - v)
    | none => pi_0
  match pi_0a, pi_1a with
  | some a, some b => some ⟨a * g.p_00 + b * g.p_01, b * g.p_11 + a * g.p_10⟩
  | _, _ => none

/-- The result dict of `get_unbiased_mean_estimator`:
`{'pihat_0': ..., 'pihat_1': ...}`, each entry possibly absent (`None`). -/
structure PiHat : Type where
  pihat_0 : Option ℝ
  pihat_1 : Option ℝ

/-- Processing of one supplied `lambda_k` in `get_unbiased_mean_estimator`
(lines 130-133 and 135-138, the two branches are textually identical up to the
lambda used): the range check `lambda_k >= .0 and lambda_k <= 1.0` raising
`InvalidProbability` when it fails, then the de-biasing formula
`(self._P[0][0] - 1.0)/(2*self._P[0][0] - 1) + lambda_k/(2*self._P[0][0] - 1)`,
whose division by the exactly-zero float `2*p_00 - 1` raises
(`NonInvertibleMechanism`, Python `ZeroDivisionError`). -/
noncomputable def pihatTerm (g : GeneralRandomizedResponse) (l : ℝ) :
    Except DPError ℝ :=
  if 0 ≤ l ∧ l ≤ 1 then
    if 2 * g.p_00 - 1 = 0 then .error .NonInvertibleMechanism
    else .ok ((g.p_00 - 1) / (2 * g.p_00 - 1) + l / (2 * g.p_00 - 1))
  else .error .InvalidProbability

/-- `get_unbiased_mean_estimator` (lines 120-140): `lambda_0` is processed
first when supplied (any raise aborts the call before `lambda_1` is read),
then `lambda_1` when supplied; an unsupplied `lambda_k` leaves `pihat_k`
absent (`None`). -/
noncomputable def get_unbiased_mean_estimator (g : GeneralRandomizedResponse)
    (lambda_0 lambda_1 : Option ℝ) : Except DPError PiHat :=
  match lambda_0 with
  | none =>
    match lambda_1 with
    | none => .ok ⟨none, none⟩
    | some l1 => (pihatTerm g l1).map fun v => ⟨none, some v⟩
  | some l0 =>
    match pihatTerm g l0 with
    | .error e => .error e
    | .ok v0 =>
      match lambda_1 with
      | none => .ok ⟨some v0, none⟩
      | some l1 => (pihatTerm g l1).map fun v => ⟨some v0, some v⟩

/-- `get_unbiased_variance_estimator` (lines 142-143): the body is `pass`, so
every call returns `None` without raising. -/
def get_unbiased_variance_estimator (_g : GeneralRandomizedResponse) :
    Except DPError (Option ℝ) :=
  .ok none

end GeneralRandomizedResponse

open GeneralRandomizedResponse

/-- Claim C1: `init` fails with `InvalidProbability` iff some argument lies
outside the closed interval `[0,1]`, or `p_00 + p_01` is not exactly `1`, or
`p_10 + p_11` is not exactly `1`; for every argument tuple satisfying all three
conditions it succeeds and stores the matrix `[[p_00, p_01], [p_10, p_11]]`. -/
theorem init_invalid_probability_iff (p_00 p_01 p_10 p_11 : ℝ) :
    (init p_00 p_01 p_10 p_11 = .error .InvalidProbability ↔
      (p_00 ∉ Set.Icc (0 : ℝ) 1 ∨ p_01 ∉ Set.Icc (0 : ℝ) 1 ∨
       p_10 ∉ Set.Icc (0 : ℝ) 1 ∨ p_11 ∉ Set.Icc (0 : ℝ) 1 ∨
       p_00 + p_01 ≠ 1 ∨ p_10 + p_11 ≠ 1)) ∧
    (p_00 ∈ Set.Icc (0 : ℝ) 1 → p_01 ∈ Set.Icc (0 : ℝ) 1 →
     p_10 ∈ Set.Icc (0 : ℝ) 1 → p_11 ∈ Set.Icc (0 : ℝ) 1 →
     p_00 + p_01 = 1 → p_10 + p_11 = 1 →
      init p_00 p_01 p_10 p_11 = .ok ⟨p_00, p_01, p_10, p_11⟩ ∧
      matrixP ⟨p_00, p_01, p_10, p_11⟩ = [[p_00, p_01], [p_10, p_11]]) := by
  constructor
  · constructor
    · intro herr
      by_contra hnot
      push_neg at hnot
      obtain ⟨h0, h1, h2, h3, h4, h5⟩ := hnot
      rw [Set.mem_Icc] at h0 h1 h2 h3
      rw [init, if_neg (by push_neg; exact ⟨h0.2, h0.1⟩),
        if_neg (by push_neg; exact ⟨h1.2, h1.1⟩),
        if_neg (by push_neg; exact ⟨h2.2, h2.1⟩),
        if_neg (by push_neg; exact ⟨h3.2, h3.1⟩),
        if_neg (not_not_intro h4), if_neg (not_not_intro h5)] at herr
      exact Except.noConfusion herr
    · intro hrhs
      rw [init]
      split_ifs with h1 h2 h3 h4 h5 h6
      · rfl
      · rfl
      · rfl
      · rfl
      · rfl
      · rfl
      · exfalso
        push_neg at h1 h2 h3 h4 h5 h6
        rcases hrhs with h | h | h | h | h | h
        · exact h (Set.mem_Icc.mpr ⟨h1.2, h1.1⟩)
        · exact h (Set.mem_Icc.mpr ⟨h2.2, h2.1⟩)
        · exact h (Set.mem_Icc.mpr ⟨h3.2, h3.1⟩)
        · exact h (Set.mem_Icc.mpr ⟨h4.2, h4.1⟩)
        · exact h h5
        · exact h h6
  · intro h0 h1 h2 h3 h4 h5
    rw [Set.mem_Icc] at h0 h1 h2 h3
    refine ⟨?_, rfl⟩
    rw [init, if_neg (by push_neg; exact ⟨h0.2, h0.1⟩),
      if_neg (by push_neg; exact ⟨h1.2, h1.1⟩),
      if_neg (by push_neg; exact ⟨h2.2, h2.1⟩),
      if_neg (by push_neg; exact ⟨h3.2, h3.1⟩),
      if_neg (not_not_intro h4), if_neg (not_not_intro h5)]

/-- Witness for C1 at the maximal-privacy tuple `(0.5, 0.5, 0.5, 0.5)`. -/
theorem init_invalid_probability_iff_witness :
    (1 / 2 : ℝ) ∈ Set.Icc (0 : ℝ) 1 ∧ (1 / 2 : ℝ) + 1 / 2 = 1 ∧
    init (1 / 2) (1 / 2) (1 / 2) (1 / 2) =
      .ok ⟨1 / 2, 1 / 2, 1 / 2, 1 / 2⟩ := by
  have h := (init_invalid_probability_iff (1 / 2) (1 / 2) (1 / 2) (1 / 2)).2
    (by norm_num) (by norm_num) (by norm_num) (by norm_num)
    (by norm_num) (by norm_num)
  exact ⟨by norm_num, by norm_num, h.1⟩

/-- Claim C2: for every validly constructed matrix, `check_eps_privacy`
fails with `InvalidEpsilon` when `eps < 0`; otherwise it returns `true` iff
`max(p, q) ≤ exp(eps) + tol`, where `p = p_00/p_01` (`+∞` when `p_01 = 0`) and
`q = p_11/p_10` (`+∞` when `p_10 = 0`). -/
theorem check_eps_privacy_spec (g : GeneralRandomizedResponse) (_hv : Valid g)
    (eps tol : ℝ) :
    (eps < 0 → check_eps_privacy g eps tol = .error .InvalidEpsilon) ∧
    (0 ≤ eps → (check_eps_privacy g eps tol = .ok true ↔
      max (lratP g) (lratQ g) ≤ ((Real.exp eps + tol : ℝ) : EReal))) := by
  constructor
  · intro hneg
    rw [check_eps_privacy, if_pos hneg]
  · intro hpos
    rw [check_eps_privacy, if_neg (not_lt.mpr hpos)]
    by_cases hc : max (lratP g) (lratQ g) ≤ ((Real.exp eps + tol : ℝ) : EReal)
    · rw [if_pos hc]
      exact iff_of_true rfl hc
    · rw [if_neg hc]
      exact iff_of_false (by simp) hc

/-- Witness for C2 at the maximal-privacy matrix with `eps = 0`, `tol = 0`. -/
theorem check_eps_privacy_spec_witness :
    Valid ⟨1 / 2, 1 / 2, 1 / 2, 1 / 2⟩ ∧
    (((0 : ℝ) < 0 →
        check_eps_privacy ⟨1 / 2, 1 / 2, 1 / 2, 1 / 2⟩ 0 0 =
          .error .InvalidEpsilon) ∧
      ((0 : ℝ) ≤ 0 →
        (check_eps_privacy ⟨1 / 2, 1 / 2, 1 / 2, 1 / 2⟩ 0 0 = .ok true ↔
          max (lratP ⟨1 / 2, 1 / 2, 1 / 2, 1 / 2⟩)
              (lratQ ⟨1 / 2, 1 / 2, 1 / 2, 1 / 2⟩) ≤
            ((Real.exp 0 + 0 : ℝ) : EReal)))) :=
  ⟨by constructor <;> norm_num,
   check_eps_privacy_spec ⟨1 / 2, 1 / 2, 1 / 2, 1 / 2⟩
     (by constructor <;> norm_num) 0 0⟩

/-- Claim C3: for every `eps` (with no validation that `eps ≥ 0`),
`set_optimal_utility` replaces the held matrix — independently of the previous
state — with the symmetric matrix `p_00 = p_11 = exp(eps)/(1 + exp(eps))`,
`p_01 = p_10 = 1/(1 + exp(eps))`, in closed form. -/
theorem set_optimal_utility_spec (g g2 : GeneralRandomizedResponse) (eps : ℝ) :
    set_optimal_utility g eps =
      ⟨Real.exp eps / (1 + Real.exp eps), 1 / (1 + Real.exp eps),
       1 / (1 + Real.exp eps), Real.exp eps / (1 + Real.exp eps)⟩ ∧
    set_optimal_utility g2 eps = set_optimal_utility g eps :=
  ⟨rfl, rfl⟩

/-- Claim C4: for every `eps ≥ 0` and tolerance `tol ≥ 0`, calibrating with
`set_optimal_utility eps` and then auditing with `check_eps_privacy eps tol`
returns `true` (in exact real arithmetic the calibrated likelihood ratio equals
`exp(eps)`, so `tol = 0` already suffices). -/
theorem set_optimal_then_check (g : GeneralRandomizedResponse) (eps tol : ℝ)
    (heps : 0 ≤ eps) (htol : 0 ≤ tol) :
    check_eps_privacy (set_optimal_utility g eps) eps tol = .ok true := by
  have hexp : (0 : ℝ) < Real.exp eps := Real.exp_pos eps
  have hden : (0 : ℝ) < 1 + Real.exp eps := by linarith
  have hdne : (1 + Real.exp eps : ℝ) ≠ 0 := ne_of_gt hden
  have h01 : (set_optimal_utility g eps).p_01 ≠ 0 := by
    show (1 / (1 + Real.exp eps) : ℝ) ≠ 0
    exact one_div_ne_zero hdne
  have h10 : (set_optimal_utility g eps).p_10 ≠ 0 := h01
  have hp : lratP (set_optimal_utility g eps) = ((Real.exp eps : ℝ) : EReal) := by
    rw [lratP, if_neg h01]
    congr 1
    show (Real.exp eps / (1 + Real.exp eps)) / (1 / (1 + Real.exp eps)) = Real.exp eps
    field_simp
  have hq : lratQ (set_optimal_utility g eps) = ((Real.exp eps : ℝ) : EReal) := by
    rw [lratQ, if_neg h10]
    congr 1
    show (Real.exp eps / (1 + Real.exp eps)) / (1 / (1 + Real.exp eps)) = Real.exp eps
    field_simp
  rw [check_eps_privacy, if_neg (not_lt.mpr heps), hp, hq, max_self, if_pos]
  exact EReal.coe_le_coe_iff.mpr (by linarith)

/-- Witness for C4: `set_optimal_utility(1.0)` then
`check_eps_privacy(1.0, tol = 5e-16)` returns `true`. -/
theorem set_optimal_then_check_witness :
    (0 : ℝ) ≤ 1 ∧ (0 : ℝ) ≤ 5e-16 ∧
    check_eps_privacy
      (set_optimal_utility ⟨1 / 2, 1 / 2, 1 / 2, 1 / 2⟩ 1) 1 5e-16 =
      .ok true :=
  ⟨by norm_num, by norm_num,
   set_optimal_then_check ⟨1 / 2, 1 / 2, 1 / 2, 1 / 2⟩ 1 5e-16
     (by norm_num) (by norm_num)⟩

/-- Unfolding lemma: with `pi_0 = some a` supplied, line 112 sets
`pi_1 = 1 - a` (whatever `pi_1` was passed) and line 113 then sets
`pi_0 = 1 - (1 - a)`. -/
theorem get_P_X_mass_some_left (g : GeneralRandomizedResponse) (a : ℝ)
    (q : Option ℝ) :
    get_P_X_mass g (some a) q =
      some (PMass.mk ((1 - (1 - a)) * g.p_00 + (1 - a) * g.p_01)
        ((1 - a) * g.p_11 + (1 - (1 - a)) * g.p_10)) := rfl

/-- Unfolding lemma: with only `pi_1 = some b` supplied, line 113 sets
`pi_0 = 1 - b`. -/
theorem get_P_X_mass_some_right (g : GeneralRandomizedResponse) (b : ℝ) :
    get_P_X_mass g none (some b) =
      some (PMass.mk ((1 - b) * g.p_00 + b * g.p_01)
        (b * g.p_11 + (1 - b) * g.p_10)) := rfl

/-- Unfolding lemma: with neither proportion supplied, the `None` arithmetic
fails. -/
theorem get_P_X_mass_none_none (g : GeneralRandomizedResponse) :
    get_P_X_mass g none none = none := rfl

/-- Claim C5: for every validly constructed matrix and exactly one supplied
argument of `get_P_X_mass`, the other proportion is derived as `1` minus the
given one and the result satisfies `P(Y=0) = pi_0*p_00 + pi_1*p_01` and
`P(Y=1) = pi_1*p_11 + pi_0*p_10`; no validation rejects out-of-range inputs
(the value `a` ranges over all reals). -/
theorem get_P_X_mass_one_arg (g : GeneralRandomizedResponse) (_hv : Valid g)
    (a : ℝ) :
    get_P_X_mass g (some a) none =
      some (PMass.mk (a * g.p_00 + (1 - a) * g.p_01)
        ((1 - a) * g.p_11 + a * g.p_10)) ∧
    get_P_X_mass g none (some a) =
      some (PMass.mk ((1 - a) * g.p_00 + a * g.p_01)
        (a * g.p_11 + (1 - a) * g.p_10)) := by
  have h : (1 : ℝ) - (1 - a) = a := by ring
  constructor
  · rw [get_P_X_mass_some_left, h]
  · rw [get_P_X_mass_some_right]

/-- Witness for C5 at the direct-questioning matrix `(1, 0, 0, 1)` with
proportion `7/10`. -/
theorem get_P_X_mass_one_arg_witness :
    Valid ⟨1, 0, 0, 1⟩ ∧
    (get_P_X_mass ⟨1, 0, 0, 1⟩ (some (7 / 10)) none =
        some (PMass.mk ((7 / 10 : ℝ) * 1 + (1 - 7 / 10) * 0)
          ((1 - 7 / 10 : ℝ) * 1 + (7 / 10) * 0)) ∧
     get_P_X_mass ⟨1, 0, 0, 1⟩ none (some (7 / 10)) =
        some (PMass.mk ((1 - 7 / 10 : ℝ) * 1 + (7 / 10) * 0)
          ((7 / 10 : ℝ) * 1 + (1 - 7 / 10) * 0))) :=
  ⟨by constructor <;> norm_num,
   get_P_X_mass_one_arg ⟨1, 0, 0, 1⟩ (by constructor <;> norm_num) (7 / 10)⟩

/-- Counterexample to claim C6 as stated: at the validly constructed
direct-questioning matrix `(1, 0, 0, 1)` with `pi_0 = 0` and `pi_1 = 0`, the
result of supplying both differs from the result of supplying only
`pi_1 = 0` — the second supplied value does not override. -/
theorem get_P_X_mass_both_counterexample :
    Valid ⟨1, 0, 0, 1⟩ ∧
    get_P_X_mass ⟨1, 0, 0, 1⟩ (some 0) (some 0) ≠
      get_P_X_mass ⟨1, 0, 0, 1⟩ none (some 0) := by
  refine ⟨by constructor <;> norm_num, ?_⟩
  rw [get_P_X_mass_some_left, get_P_X_mass_some_right]
  intro h
  rw [Option.some.injEq, PMass.mk.injEq] at h
  norm_num at h

/-- Claim C6 (amended): when both `pi_0 = a` and `pi_1 = b` are supplied to
`get_P_X_mass`, the FIRST supplied value `pi_0` silently overrides: the result
equals the result of supplying only `pi_0 = a` (line 112 recomputes `pi_1` as
`1 - pi_0` before the passed `pi_1` is read), so the caller's second-given
value `b` is not preserved. -/
theorem get_P_X_mass_both_first_overrides (g : GeneralRandomizedResponse)
    (_hv : Valid g) (a b : ℝ) :
    get_P_X_mass g (some a) (some b) = get_P_X_mass g (some a) none := rfl

/-- Witness for the amended C6 at the direct-questioning matrix with
`a = 0`, `b = 1`. -/
theorem get_P_X_mass_both_first_overrides_witness :
    Valid ⟨1, 0, 0, 1⟩ ∧
    get_P_X_mass ⟨1, 0, 0, 1⟩ (some 0) (some 1) =
      get_P_X_mass ⟨1, 0, 0, 1⟩ (some 0) none :=
  ⟨by constructor <;> norm_num,
   get_P_X_mass_both_first_overrides ⟨1, 0, 0, 1⟩
     (by constructor <;> norm_num) 0 1⟩

/-- Claim C10: calling `get_P_X_mass` with neither `pi_0` nor `pi_1` supplied
never returns a mass dictionary (the `None` arithmetic fails), and a defined
result exists exactly when at least one of the two arguments is supplied. -/
theorem get_P_X_mass_isSome_iff (g : GeneralRandomizedResponse)
    (pi_0 pi_1 : Option ℝ) :
    get_P_X_mass g none none = none ∧
    ((get_P_X_mass g pi_0 pi_1).isSome ↔ pi_0.isSome ∨ pi_1.isSome) := by
  refine ⟨rfl, ?_⟩
  cases pi_0 with
  | some a =>
    rw [get_P_X_mass_some_left]
    simp
  | none =>
    cases pi_1 with
    | some b =>
      rw [get_P_X_mass_some_right]
      simp
    | none =>
      rw [get_P_X_mass_none_none]
      simp

/-- Unfolding lemma for `pihatTerm` when the supplied value passes the range
check and the denominator is nonzero. -/
theorem pihatTerm_in_range (g : GeneralRandomizedResponse) (l : ℝ)
    (hl : 0 ≤ l ∧ l ≤ 1) (hden : 2 * g.p_00 - 1 ≠ 0) :
    pihatTerm g l =
      .ok ((g.p_00 - 1) / (2 * g.p_00 - 1) + l / (2 * g.p_00 - 1)) := by
  rw [pihatTerm, if_pos hl, if_neg hden]

/-- Unfolding lemma for `pihatTerm` when the supplied value fails the range
check. -/
theorem pihatTerm_out_of_range (g : GeneralRandomizedResponse) (l : ℝ)
    (hl : ¬(0 ≤ l ∧ l ≤ 1)) :
    pihatTerm g l = .error .InvalidProbability := by
  rw [pihatTerm, if_neg hl]

/-- Unfolding lemma for `pihatTerm` when the supplied value passes the range
check and the denominator `2*p_00 - 1` is exactly zero. -/
theorem pihatTerm_den_zero (g : GeneralRandomizedResponse) (l : ℝ)
    (hl : 0 ≤ l ∧ l ≤ 1) (hden : 2 * g.p_00 - 1 = 0) :
    pihatTerm g l = .error .NonInvertibleMechanism := by
  rw [pihatTerm, if_pos hl, if_pos hden]

/-- Unfolding lemma: no lambda supplied leaves both estimates absent. -/
theorem unbiased_none_none (g : GeneralRandomizedResponse) :
    get_unbiased_mean_estimator g none none = .ok ⟨none, none⟩ := rfl

/-- Unfolding lemma: only `lambda_1` supplied. -/
theorem unbiased_none_some (g : GeneralRandomizedResponse) (l1 : ℝ) :
    get_unbiased_mean_estimator g none (some l1) =
      (pihatTerm g l1).map fun v => ⟨none, some v⟩ := rfl

/-- Unfolding lemma: `lambda_0` supplied; it is processed before `lambda_1`
is read. -/
theorem unbiased_some_left (g : GeneralRandomizedResponse) (l0 : ℝ)
    (l1 : Option ℝ) :
    get_unbiased_mean_estimator g (some l0) l1 =
      match pihatTerm g l0 with
      | .error e => .error e
      | .ok v0 =>
        match l1 with
        | none => .ok ⟨some v0, none⟩
        | some l1v => (pihatTerm g l1v).map fun v => ⟨some v0, some v⟩ := rfl

/-- Unfolding lemma: a raise while processing a supplied `lambda_0` aborts the
whole call with that error, whatever `lambda_1` is. -/
theorem unbiased_some_error (g : GeneralRandomizedResponse) (l0 : ℝ)
    (l1 : Option ℝ) (e : DPError) (h : pihatTerm g l0 = .error e) :
    get_unbiased_mean_estimator g (some l0) l1 = .error e := by
  rw [unbiased_some_left, h]

/-- Unfolding lemma: `lambda_0` supplied and processed successfully,
`lambda_1` absent. -/
theorem unbiased_some_ok_none (g : GeneralRandomizedResponse) (l0 v0 : ℝ)
    (h : pihatTerm g l0 = .ok v0) :
    get_unbiased_mean_estimator g (some l0) none = .ok ⟨some v0, none⟩ := by
  rw [unbiased_some_left, h]

/-- Unfolding lemma: `lambda_0` supplied and processed successfully,
`lambda_1` supplied and processed next. -/
theorem unbiased_some_ok_some (g : GeneralRandomizedResponse) (l0 l1 v0 : ℝ)
    (h : pihatTerm g l0 = .ok v0) :
    get_unbiased_mean_estimator g (some l0) (some l1) =
      (pihatTerm g l1).map fun v => ⟨some v0, some v⟩ := by
  rw [unbiased_some_left, h]

/-- Claim C7: for every validly constructed matrix with `p_00 ≠ 0.5`,
`get_unbiased_mean_estimator` treats `lambda_0` and `lambda_1` as
independently optional; a supplied `lambda_k` outside `[0,1]` makes the call
fail with `InvalidProbability`, and otherwise each supplied `lambda_k` yields
`pihat_k = (p_00 - 1)/(2*p_00 - 1) + lambda_k/(2*p_00 - 1)` (with `p_00` used
uniformly for both), an unsupplied `lambda_k` leaving `pihat_k` absent. -/
theorem get_unbiased_mean_estimator_spec (g : GeneralRandomizedResponse)
    (_hv : Valid g) (hp : g.p_00 ≠ 1 / 2) (lambda_0 lambda_1 : Option ℝ) :
    ((∃ x, lambda_0 = some x ∧ ¬(0 ≤ x ∧ x ≤ 1)) ∨
     (∃ y, lambda_1 = some y ∧ ¬(0 ≤ y ∧ y ≤ 1)) →
      get_unbiased_mean_estimator g lambda_0 lambda_1 =
        .error .InvalidProbability) ∧
    ((∀ x, lambda_0 = some x → 0 ≤ x ∧ x ≤ 1) →
     (∀ y, lambda_1 = some y → 0 ≤ y ∧ y ≤ 1) →
      get_unbiased_mean_estimator g lambda_0 lambda_1 =
        .ok ⟨lambda_0.map
              (fun x => (g.p_00 - 1) / (2 * g.p_00 - 1) + x / (2 * g.p_00 - 1)),
             lambda_1.map
              (fun y => (g.p_00 - 1) / (2 * g.p_00 - 1) + y / (2 * g.p_00 - 1))⟩) := by
  have hden : 2 * g.p_00 - 1 ≠ 0 := fun h => hp (by linarith)
  cases lambda_0 with
  | none =>
    cases lambda_1 with
    | none =>
      refine ⟨?_, fun _ _ => rfl⟩
      rintro (⟨x, hx, _⟩ | ⟨y, hy, _⟩)
      · exact Option.noConfusion hx
      · exact Option.noConfusion hy
    | some y =>
      by_cases hy : 0 ≤ y ∧ y ≤ 1
      · refine ⟨?_, ?_⟩
        · rintro (⟨x, hx, _⟩ | ⟨y2, hy2, hbad⟩)
          · exact Option.noConfusion hx
          · rw [Option.some.injEq] at hy2
            cases hy2
            exact absurd hy hbad
        · intro _ _
          rw [unbiased_none_some, pihatTerm_in_range g y hy hden]
          rfl
      · refine ⟨?_, ?_⟩
        · intro _
          rw [unbiased_none_some, pihatTerm_out_of_range g y hy]
          rfl
        · intro _ h1
          exact absurd (h1 y rfl) hy
  | some x =>
    by_cases hx : 0 ≤ x ∧ x ≤ 1
    · have hpx := pihatTerm_in_range g x hx hden
      cases lambda_1 with
      | none =>
        refine ⟨?_, ?_⟩
        · rintro (⟨x2, hx2, hbad⟩ | ⟨y, hy, _⟩)
          · rw [Option.some.injEq] at hx2
            cases hx2
            exact absurd hx hbad
          · exact Option.noConfusion hy
        · intro _ _
          exact unbiased_some_ok_none g x _ hpx
      | some y =>
        by_cases hy : 0 ≤ y ∧ y ≤ 1
        · refine ⟨?_, ?_⟩
          · rintro (⟨x2, hx2, hbad⟩ | ⟨y2, hy2, hbad⟩)
            · rw [Option.some.injEq] at hx2
              cases hx2
              exact absurd hx hbad
            · rw [Option.some.injEq] at hy2
              cases hy2
              exact absurd hy hbad
          · intro _ _
            exact (unbiased_some_ok_some g x y _ hpx).trans
              (by rw [pihatTerm_in_range g y hy hden]; rfl)
        · refine ⟨?_, ?_⟩
          · intro _
            exact (unbiased_some_ok_some g x y _ hpx).trans
              (by rw [pihatTerm_out_of_range g y hy]; rfl)
          · intro _ h1
            exact absurd (h1 y rfl) hy
    · have hpx := pihatTerm_out_of_range g x hx
      refine ⟨?_, ?_⟩
      · intro _
        exact unbiased_some_error g x lambda_1 _ hpx
      · intro h0 _
        exact absurd (h0 x rfl) hx

/-- Witness for C7 at the matrix `(0.9, 0.1, 0.1, 0.9)` with
`lambda_0 = 0.5` supplied and `lambda_1` absent. -/
theorem get_unbiased_mean_estimator_spec_witness :
    get_unbiased_mean_estimator ⟨9 / 10, 1 / 10, 1 / 10, 9 / 10⟩
        (some (1 / 2)) none =
      .ok ⟨some ((9 / 10 - 1) / (2 * (9 / 10) - 1) +
            (1 / 2) / (2 * (9 / 10) - 1)), none⟩ := by
  have h := (get_unbiased_mean_estimator_spec ⟨9 / 10, 1 / 10, 1 / 10, 9 / 10⟩
    (by constructor <;> norm_num) (by norm_num) (some (1 / 2)) none).2
    (by intro x hx; rw [Option.some.injEq] at hx; cases hx; norm_num)
    (by intro y hy; exact Option.noConfusion hy)
  exact h

/-- Counterexample to claim C8 as stated: at the validly constructed
maximal-privacy matrix (`p_00 = 0.5`) with `lambda_0 = 2` (supplied, outside
`[0,1]`) and `lambda_1 = 0.5` (supplied, inside `[0,1]`, so at least one
supplied lambda lies in `[0,1]`), the call fails with `InvalidProbability`
from the `lambda_0` range check — the zero denominator is never reached, so
the failure is not `NonInvertibleMechanism`. -/
theorem unbiased_half_matrix_counterexample :
    Valid ⟨1 / 2, 1 / 2, 1 / 2, 1 / 2⟩ ∧
    ((0 : ℝ) ≤ 1 / 2 ∧ (1 / 2 : ℝ) ≤ 1) ∧
    get_unbiased_mean_estimator ⟨1 / 2, 1 / 2, 1 / 2, 1 / 2⟩
        (some 2) (some (1 / 2)) = .error .InvalidProbability ∧
    DPError.InvalidProbability ≠ DPError.NonInvertibleMechanism := by
  refine ⟨by constructor <;> norm_num, by norm_num, ?_, by decide⟩
  exact unbiased_some_error _ 2 _ _ (pihatTerm_out_of_range _ 2 (by norm_num))

/-- Claim C8 (amended): for every validly constructed matrix with
`p_00 = 0.5`, every supplied `lambda_k` lying in `[0,1]` and at least one
supplied, `get_unbiased_mean_estimator` fails — the zero denominator
`2*p_00 - 1` is detected and surfaced as `NonInvertibleMechanism` — rather
than returning a division result. -/
theorem unbiased_half_matrix_noninvertible (g : GeneralRandomizedResponse)
    (_hv : Valid g) (hp : g.p_00 = 1 / 2) (lambda_0 lambda_1 : Option ℝ)
    (h0 : ∀ x, lambda_0 = some x → 0 ≤ x ∧ x ≤ 1)
    (h1 : ∀ y, lambda_1 = some y → 0 ≤ y ∧ y ≤ 1)
    (hsome : lambda_0.isSome ∨ lambda_1.isSome) :
    get_unbiased_mean_estimator g lambda_0 lambda_1 =
      .error .NonInvertibleMechanism := by
  have hden : 2 * g.p_00 - 1 = 0 := by rw [hp]; ring
  cases lambda_0 with
  | some x =>
    exact unbiased_some_error g x lambda_1 _
      (pihatTerm_den_zero g x (h0 x rfl) hden)
  | none =>
    cases lambda_1 with
    | some y =>
      rw [unbiased_none_some, pihatTerm_den_zero g y (h1 y rfl) hden]
      rfl
    | none => simp at hsome

/-- Witness for the amended C8 at the maximal-privacy matrix with
`lambda_0 = 0.5` supplied and `lambda_1` absent. -/
theorem unbiased_half_matrix_noninvertible_witness :
    get_unbiased_mean_estimator ⟨1 / 2, 1 / 2, 1 / 2, 1 / 2⟩
        (some (1 / 2)) none = .error .NonInvertibleMechanism :=
  unbiased_half_matrix_noninvertible ⟨1 / 2, 1 / 2, 1 / 2, 1 / 2⟩
    (by constructor <;> norm_num) (by norm_num) (some (1 / 2)) none
    (by intro x hx; rw [Option.some.injEq] at hx; cases hx; norm_num)
    (by intro y hy; exact Option.noConfusion hy)
    (Or.inl rfl)

/-- Claim C9 concerns `get_unbiased_variance_estimator`: in the source its
body is `pass`, so every call silently succeeds returning `None` — it never
raises, contradicting the required explicit not-implemented failure. -/
theorem get_unbiased_variance_estimator_silent
    (g : GeneralRandomizedResponse) :
    get_unbiased_variance_estimator g = .ok none := rfl
